import Mathlib

/-!
Verification development for the SafeGuardAI (SAFEGUARD-Health) repository.

The repository ships a browser extension (content script, popup, side-panel
chat client) written in JavaScript, plus a README documenting the Flask
backend's four-stage safety pipeline (RuleFilter, EvidenceAggregator,
DecisionEngine, ExplanationGenerator).  The JavaScript sources are embedded
shallowly below; JavaScript strings are modelled as Lean `String`
(`substring(0, n)` over UTF-16 units becomes a take of `n` characters, and
`charCodeAt` becomes `Char.toNat`, which agree on the texts at issue),
JavaScript's 32-bit signed integer coercion becomes `toInt32`, and the DOM
is modelled as a record with a `querySelector` field.  The backend pipeline
itself is not part of the available sources; its definitions are modelled
from the specification and marked `Modelled from the spec:` in their doc
comments.
-/

namespace SafeGuard

/- ===================== Core data model (spec section 3) ===================== -/

/-- The five final decisions of the DecisionEngine. -/
inductive Decision where
  | ALLOW
  | ALLOW_WITH_WARNING
  | REFUSE
  | ESCALATE
  | ASK_MORE_INFO
deriving DecidableEq, Repr

/-- Severity levels paired with a Decision. -/
inductive Severity where
  | LOW
  | MEDIUM
  | HIGH
deriving DecidableEq, Repr

/-- Per-claim evidence status. -/
inductive EvidenceStatus where
  | STRONG_SUPPORT
  | WEAK_SUPPORT
  | NO_EVIDENCE
  | CONTRADICTED
deriving DecidableEq, Repr

/-- Confidence level attached to an evidence verdict. -/
inductive ConfidenceLevel where
  | HIGH
  | MEDIUM
  | LOW
  | UNKNOWN
deriving DecidableEq, Repr

/-- Modelled from the spec: `RuleFlags` — the fixed schema of boolean hazard
flags produced by the RuleFilter (spec sections 3 and 4.1).  The backend
implementation is not in the available sources.  `contains_diagnosis` is the
definitive-diagnosis flag. -/
structure RuleFlags where
  contains_dosage : Bool
  contains_diagnosis : Bool
  contains_treatment : Bool
  contains_prescription : Bool
  contains_emergency : Bool
deriving DecidableEq, Repr

/-- A search-result source: URL, title, originating domain, and an external
relevance judgement recording whether the source explicitly negates the
claim it was retrieved for (spec section 4.2 step 4). -/
structure Source where
  url : String
  title : String
  domain : String
  negatesClaim : Bool
deriving DecidableEq, Repr

/-- Per-claim evidence verdict (spec section 3). -/
structure EvidenceVerdict where
  claim : String
  status : EvidenceStatus
  confidence : ConfidenceLevel
  sources : List Source
deriving DecidableEq, Repr

/-- Optional user context accompanying an evaluation request. -/
structure UserContext where
  age : Option Nat
  symptoms : Option String
  medicalHistory : Option String
  timeframe : Option String
deriving DecidableEq, Repr

/-- The triple returned by the DecisionEngine. -/
structure Verdict where
  decision : Decision
  severity : Severity
  riskScore : Nat
deriving DecidableEq, Repr

/-- The final output of one evaluation (spec section 3). -/
structure EvaluationResult where
  decision : Decision
  severity : Severity
  riskScore : Nat
  rule_flags : RuleFlags
  evidence_summary : List EvidenceVerdict
  explanation : String
deriving Repr

/- ============ Content script (src/unnamed/part_000, JavaScript) ============ -/

/-- One visual configuration of the result overlay, as built by
`getDecisionConfig` in the content script. -/
structure DecisionConfig where
  color : String
  icon : String
  label : String
  actionButton : String
deriving DecidableEq, Repr

/-- The value produced by the JavaScript bracket lookup `configs[decision]`
on the `configs` object literal: one of the five own entries, a member
inherited from `Object.prototype` (a truthy function or object such as
`toString` or `constructor`), or `undefined`. -/
inductive ConfigLookup where
  | own (c : DecisionConfig)
  | inherited (name : String)
  | undefined
deriving DecidableEq, Repr

/-- The member names every plain object literal inherits from
`Object.prototype`; bracket lookup on `configs` with one of these names
yields a truthy inherited value rather than `undefined`. -/
def objectPrototypeMembers : List String :=
  ["constructor", "hasOwnProperty", "isPrototypeOf", "propertyIsEnumerable",
   "toLocaleString", "toString", "valueOf", "__proto__", "__defineGetter__",
   "__defineSetter__", "__lookupGetter__", "__lookupSetter__"]

/-- JavaScript truthiness of a lookup result: own config objects and
inherited prototype members are truthy, `undefined` is falsy. -/
def ConfigLookup.truthy : ConfigLookup → Bool
  | ConfigLookup.own _ => true
  | ConfigLookup.inherited _ => true
  | ConfigLookup.undefined => false

/-- The bracket lookup `configs[decision]` in the content script's
`getDecisionConfig`: the five own properties of the object literal first,
then the `Object.prototype` chain, else `undefined`. -/
def configsLookup (decision : String) : ConfigLookup :=
  if decision = "REFUSE" then
    ConfigLookup.own
      { color := "#dc2626", icon := "🚫", label := "CONTENT BLOCKED",
        actionButton := "<button class=\"safeguard-btn-danger safeguard-action-btn\" data-action=\"visit-who\">Visit WHO.int for Trusted Info</button>" }
  else if decision = "ESCALATE" then
    ConfigLookup.own
      { color := "#f59e0b", icon := "⚠️", label := "NEEDS REVIEW",
        actionButton := "<button class=\"safeguard-btn-warning safeguard-action-btn\" data-action=\"contact-provider\">Contact Healthcare Provider</button>" }
  else if decision = "ASK_MORE_INFO" then
    ConfigLookup.own
      { color := "#3b82f6", icon := "ℹ️", label := "MORE INFO NEEDED",
        actionButton := "<button class=\"safeguard-btn-info safeguard-action-btn\" data-action=\"show-info\">What Info is Needed?</button>" }
  else if decision = "ALLOW_WITH_WARNING" then
    ConfigLookup.own
      { color := "#eab308", icon := "⚡", label := "PROCEED WITH CAUTION",
        actionButton := "<button class=\"safeguard-btn-warning safeguard-action-btn\" data-action=\"learn-more\">Learn More</button>" }
  else if decision = "ALLOW" then
    ConfigLookup.own
      { color := "#16a34a", icon := "✅", label := "CONTENT APPEARS SAFE",
        actionButton := "" }
  else if decision ∈ objectPrototypeMembers then
    ConfigLookup.inherited decision
  else
    ConfigLookup.undefined

/-- The content script function `getDecisionConfig(decision)`:
`configs[decision] || configs['REFUSE']` — the bracket lookup's value when
it is truthy (which includes truthy members inherited from
`Object.prototype`), otherwise the `REFUSE` entry. -/
def getDecisionConfig (decision : String) : ConfigLookup :=
  if (configsLookup decision).truthy then configsLookup decision
  else configsLookup "REFUSE"

/-- JavaScript ToInt32: wrap an integer into the signed 32-bit range, as the
`& ` and `<< ` operators do in the content script's `hashContent`. -/
def toInt32 (n : Int) : Int := (n + 2 ^ 31) % 2 ^ 32 - 2 ^ 31

/-- One step of `hashContent`: `hash = ((hash << 5) - hash) + char` followed
by `hash = hash & hash` (the 32-bit truncation).  `hash << 5` itself operates
on the 32-bit value. -/
def hashStep (h : Int) (c : Nat) : Int := toInt32 (toInt32 (h * 32) - h + c)

/-- The content script function `hashContent(content)`: fold `hashStep` over the
character codes of the content, starting from 0. -/
def hashContent (content : String) : Int :=
  content.data.foldl (fun h c => hashStep h c.toNat) 0

/-- The observable effect of one run of `evaluateSelectedText`: either a
transient notification or a POST of the content to the backend
(`evaluateContent`). -/
inductive ScriptAction where
  | notification (msg : String)
  | backendRequest (content : String)
deriving DecidableEq, Repr

/-- The content script's page-session state: the `evaluatedContent` set of
content hashes, modelled as a list. -/
structure ScriptState where
  evaluatedContent : List Int
deriving DecidableEq, Repr

/-- The content script function `evaluateSelectedText()`, as a state transition.
`selection` is the already-trimmed text of `window.getSelection()` (the
`.trim()` happens while reading the selection).  The script bails out with a
notification on empty or short selections, bails out when the content hash
is already in `evaluatedContent`, and otherwise issues the backend request
and records the hash. -/
def evaluateSelectedText (st : ScriptState) (selection : String) :
    ScriptState × ScriptAction :=
  if selection = "" then
    (st, ScriptAction.notification "Please select some text first")
  else if selection.length < 10 then
    (st, ScriptAction.notification "Selected text is too short")
  else
    let contentHash := hashContent selection
    if contentHash ∈ st.evaluatedContent then
      (st, ScriptAction.notification "This content has already been evaluated")
    else
      ({ evaluatedContent := contentHash :: st.evaluatedContent },
       ScriptAction.backendRequest selection)

/-- A DOM element, reduced to the one observation the content script makes
of it. -/
structure PageElement where
  innerText : String
deriving DecidableEq, Repr

/-- A web page, reduced to what `extractMainContent` observes: the
`querySelector` lookup and the body's inner text. -/
structure Page where
  querySelector : String → Option PageElement
  bodyInnerText : String

/-- The selector list tried, in order, by `extractMainContent`. -/
def contentSelectors : List String :=
  ["main", "article", "[role=\"main\"]", ".content",
   ".main-content", "#content", ".post-content"]

/-- The `for (const selector of selectors)` loop of `extractMainContent`:
first selector with a match wins. -/
def findFirstMatch (page : Page) : List String → Option PageElement
  | [] => none
  | s :: rest =>
    match page.querySelector s with
    | some el => some el
    | none => findFirstMatch page rest

/-- JavaScript `s.substring(0, n)`, modelled on characters. -/
def jsSubstringTo (s : String) (n : Nat) : String := String.mk (s.data.take n)

/-- The content script function `extractMainContent()`: return the trimmed inner
text of the first matching main-content element, else fall back to the first
5000 characters of the trimmed body text. -/
def extractMainContent (page : Page) : String :=
  match findFirstMatch page contentSelectors with
  | some el => el.innerText.trim
  | none => jsSubstringTo page.bodyInnerText.trim 5000

/- ======== Side-panel chat client (sidepanel script inside src/readme.md) ======== -/

/-- Response body of `POST /api/chat` as the side-panel script consumes it:
`safe`/`filtered_response` pair, the base model's raw answer in
`ai_response`, and the safety `explanation`. -/
structure ChatResponse where
  user_message : String
  ai_response : String
  decision : Decision
  severity : Severity
  safe : Bool
  filtered_response : Option String
  explanation : String
deriving DecidableEq, Repr

/-- A chat bubble appended by `addMessage` in the side-panel script, reduced
to its type, its text content and its metadata. -/
inductive ChatMessage where
  | assistant (content : String) (decision : Decision) (severity : Severity)
  | blocked (content : String) (decision : Decision) (severity : Severity)
deriving DecidableEq, Repr

/-- The result-display branch of `handleSendMessage` in the side-panel
script: `if (data.safe)` show an assistant message whose content is
`data.filtered_response || data.ai_response`, else show a blocked message
whose content is `data.explanation`. -/
def handleSendMessageDisplay (data : ChatResponse) : ChatMessage :=
  if data.safe then
    ChatMessage.assistant (data.filtered_response.getD data.ai_response)
      data.decision data.severity
  else
    ChatMessage.blocked data.explanation data.decision data.severity

/-- Modelled from the spec: whether a decision counts as safe for the chat
variant.  The backend chat endpoint is not in the available sources; per the
spec and the README example, `ALLOW` and `ALLOW_WITH_WARNING` responses are
delivered (`safe`) and all other decisions are blocked. -/
def chatSafe (d : Decision) : Bool :=
  d == Decision.ALLOW || d == Decision.ALLOW_WITH_WARNING

/-- Modelled from the spec: the chat endpoint's response construction —
"a `safe`/`filtered_response` pair where `filtered_response` is present only
when `safe` is true".  The backend chat endpoint is not in the available
sources. -/
def mkChatResponse (userMessage aiResponse : String) (v : Verdict)
    (expl : String) : ChatResponse :=
  { user_message := userMessage
    ai_response := aiResponse
    decision := v.decision
    severity := v.severity
    safe := chatSafe v.decision
    filtered_response := if chatSafe v.decision then some aiResponse else none
    explanation := expl }

/- ============== Backend pipeline, modelled from the spec ============== -/

/-- Modelled from the spec: the RuleFilter's fixed weight table (spec
section 4.1, "weights are a configuration table").  The backend source is
not available; the weights are chosen to reproduce the README's worked
examples (dosage text scoring 40 under precedence rule 1, rule-6 subtotals
staying in the LOW bucket). -/
def ruleSubtotal (f : RuleFlags) : Nat :=
  (if f.contains_dosage then 30 else 0) +
  (if f.contains_diagnosis then 30 else 0) +
  (if f.contains_prescription then 30 else 0) +
  (if f.contains_treatment then 10 else 0) +
  (if f.contains_emergency then 10 else 0)

/-- Modelled from the spec: a simple substring test used by the RuleFilter
patterns. -/
def hasSub (t pat : String) : Bool := 2 ≤ (t.splitOn pat).length

/-- Modelled from the spec: whether the text contains a decimal digit. -/
def hasDigit (t : String) : Bool := t.data.any Char.isDigit

/-- Modelled from the spec: the RuleFilter, `evaluate(text) -> RuleFlags`
(spec section 4.1) — case-insensitive categorized pattern matching.  The
backend source is not available; the patterns instantiate the spec's
examples (numeric quantity + unit token, definitive diagnostic phrasing,
imperative verb + medication noun, fixed emergency vocabulary). -/
def ruleFilter (text : String) : RuleFlags :=
  let t := text.toLower
  { contains_dosage :=
      hasDigit t &&
        (hasSub t "mg" || hasSub t "ml" || hasSub t "tablet" || hasSub t "capsule")
    contains_diagnosis :=
      hasSub t "you have" || hasSub t "this is definitely"
    contains_treatment :=
      (hasSub t "take " || hasSub t "use ") &&
        (hasSub t "mg" || hasSub t "ml" || hasSub t "tablet" ||
         hasSub t "medication" || hasSub t "medicine" || hasSub t "paracetamol" ||
         hasSub t "aspirin")
    contains_prescription :=
      hasSub t "prescription" || hasSub t "prescribe"
    contains_emergency :=
      hasSub t "chest pain" || hasSub t "difficulty breathing" ||
      hasSub t "stroke" || hasSub t "unconscious" }

/-- Tier-1 domains of the fixed tier table (spec section 4.2 step 3). -/
def tier1Domains : List String := ["who.int", "cdc.gov", "nih.gov", "fda.gov"]

/-- Tier-2 domains of the fixed tier table. -/
def tier2Domains : List String :=
  ["pubmed.ncbi.nlm.nih.gov", "mayoclinic.org", "nejm.org", "thelancet.com"]

/-- Tier-3 domains of the fixed tier table. -/
def tier3Domains : List String := ["webmd.com", "healthline.com", "medicalnewstoday.com"]

/-- Whether a domain string ends with the given suffix (JavaScript
`endsWith` over characters). -/
def domainEndsWith (d suf : String) : Bool := suf.data.isSuffixOf d.data

/-- Modelled from the spec: classify a source domain against the fixed tier
table (spec section 4.2 step 3); generic `.edu`/`.gov` domains are Tier 4
and anything else is untiered (`none`).  The backend source is not
available. -/
def tierOfDomain (d : String) : Option Nat :=
  if d ∈ tier1Domains then some 1
  else if d ∈ tier2Domains then some 2
  else if d ∈ tier3Domains then some 3
  else if domainEndsWith d ".edu" || domainEndsWith d ".gov" then some 4
  else none

/-- The tier assigned to a source: a function of its domain only. -/
def sourceTier (s : Source) : Option Nat := tierOfDomain s.domain

/-- Tier-derived confidence score: Tier1=100, Tier2=85, Tier3=70, Tier4=60,
untiered=0 (spec section 3). -/
def confidenceOfTier : Option Nat → Nat
  | some 1 => 100
  | some 2 => 85
  | some 3 => 70
  | some 4 => 60
  | _ => 0

/-- A source's confidence score, derived from its tier. -/
def sourceConfidence (s : Source) : Nat := confidenceOfTier (sourceTier s)

/-- The credible (tiered) sources of a result list; untiered sources are
excluded from the support calculation (spec section 4.2 step 3). -/
def credibleSources (srcs : List Source) : List Source :=
  srcs.filter (fun s => (sourceTier s).isSome)

/-- The credible sources that corroborate (do not negate) the claim. -/
def corroboratingSources (srcs : List Source) : List Source :=
  (credibleSources srcs).filter (fun s => !s.negatesClaim)

/-- Number of sources in the list carrying the given tier. -/
def countTier (n : Nat) (srcs : List Source) : Nat :=
  (srcs.filter (fun s => sourceTier s == some n)).length

/-- Modelled from the spec: per-claim status aggregation (spec section 4.2
step 4) — `STRONG_SUPPORT` if at least one Tier1 or two Tier2 sources
corroborate; `WEAK_SUPPORT` if only Tier3/Tier4 sources corroborate;
`CONTRADICTED` if credible sources explicitly negate the claim;
`NO_EVIDENCE` otherwise.  The backend source is not available. -/
def aggregateStatus (srcs : List Source) : EvidenceStatus :=
  let cor := corroboratingSources srcs
  if 1 ≤ countTier 1 cor || 2 ≤ countTier 2 cor then
    EvidenceStatus.STRONG_SUPPORT
  else if !cor.isEmpty && countTier 1 cor == 0 && countTier 2 cor == 0 then
    EvidenceStatus.WEAK_SUPPORT
  else if (credibleSources srcs).any (fun s => s.negatesClaim) then
    EvidenceStatus.CONTRADICTED
  else
    EvidenceStatus.NO_EVIDENCE

/-- Modelled from the spec: tier-weighted average of the corroborating
sources' confidence scores (spec section 4.2 step 4). -/
def avgConfidence (srcs : List Source) : Nat :=
  let cor := corroboratingSources srcs
  if cor.isEmpty then 0 else (cor.map sourceConfidence).sum / cor.length

/-- Modelled from the spec: bucket an average confidence score into HIGH
(at least 85), MEDIUM (60 to 84), LOW (below 60). -/
def bucketConfidence (n : Nat) : ConfidenceLevel :=
  if 85 ≤ n then ConfidenceLevel.HIGH
  else if 60 ≤ n then ConfidenceLevel.MEDIUM
  else ConfidenceLevel.LOW

/-- The external capabilities the pipeline consumes (spec section 6): a
primary and a fallback evidence-search provider, a claim-extraction
service, and the explanation service.  Provider calls either fail (error or
timeout, modelled as `Except.error`) or return a result list. -/
structure ExternalServices where
  primarySearch : String → Except String (List Source)
  fallbackSearch : String → Except String (List Source)
  extractClaims : String → List String
  explainService : Decision → Severity → List EvidenceVerdict → Except String String

/-- Whether one provider call counts as failed: error, timeout, or empty
result (spec section 4.2 step 2). -/
def providerFailed : Except String (List Source) → Bool
  | Except.error _ => true
  | Except.ok l => l.isEmpty

/-- The sources delivered by one provider call; a hard failure delivers
none. -/
def deliveredSources : Except String (List Source) → List Source
  | Except.error _ => []
  | Except.ok l => l

/-- Modelled from the spec: per-claim search with fallback (spec section 4.2
step 2) — query the primary provider; on failure (error, timeout, empty
result) retry once against the fallback provider. -/
def searchForClaim (svc : ExternalServices) (c : String) : List Source :=
  let r1 := svc.primarySearch c
  if providerFailed r1 then deliveredSources (svc.fallbackSearch c)
  else deliveredSources r1

/-- Modelled from the spec: build one claim's evidence verdict.  If both
providers failed the verdict is `NO_EVIDENCE` with confidence `UNKNOWN`
(spec section 4.2 step 2); otherwise status and confidence are aggregated
from the returned sources. -/
def verdictForClaim (svc : ExternalServices) (c : String) : EvidenceVerdict :=
  let srcs := searchForClaim svc c
  if srcs.isEmpty then
    { claim := c, status := EvidenceStatus.NO_EVIDENCE,
      confidence := ConfidenceLevel.UNKNOWN, sources := [] }
  else
    { claim := c, status := aggregateStatus srcs,
      confidence := bucketConfidence (avgConfidence srcs), sources := srcs }

/-- Modelled from the spec: the EvidenceAggregator,
`gather(text, flags) -> EvidenceSummary` (spec section 4.2). -/
def gather (svc : ExternalServices) (text : String) : List EvidenceVerdict :=
  (svc.extractClaims text).map (verdictForClaim svc)

/- ---------------------- DecisionEngine (spec section 4.3) ---------------------- -/

/-- Any hard-block rule flag: dosage, prescription, definitive diagnosis. -/
def hardBlock (f : RuleFlags) : Bool :=
  f.contains_dosage || f.contains_prescription || f.contains_diagnosis

/-- Some claim is `CONTRADICTED`. -/
def anyContradicted (es : List EvidenceVerdict) : Bool :=
  es.any (fun v => v.status == EvidenceStatus.CONTRADICTED)

/-- Every claim is `NO_EVIDENCE`. -/
def allNoEvidence (es : List EvidenceVerdict) : Bool :=
  es.all (fun v => v.status == EvidenceStatus.NO_EVIDENCE)

/-- Mixed support: some claim strongly supported while another is
unsupported or only weakly supported. -/
def mixedSupport (es : List EvidenceVerdict) : Bool :=
  es.any (fun v => v.status == EvidenceStatus.STRONG_SUPPORT) &&
  es.any (fun v =>
    v.status == EvidenceStatus.NO_EVIDENCE || v.status == EvidenceStatus.WEAK_SUPPORT)

/-- Modelled from the spec: rule-4 risk score, "weighted gap between
supported and unsupported claims", kept inside the MEDIUM bucket. -/
def weightedGap (es : List EvidenceVerdict) : Nat :=
  let unsupported :=
    (es.filter (fun v =>
      v.status == EvidenceStatus.NO_EVIDENCE ||
      v.status == EvidenceStatus.WEAK_SUPPORT)).length
  if es.length = 0 then 0
  else min 59 (max 25 ((100 * unsupported) / es.length))

/-- Whether the required user context (age, symptoms, timeframe) is
present (spec section 4.3 rule 5). -/
def contextComplete (u : UserContext) : Bool :=
  u.age.isSome && u.symptoms.isSome && u.timeframe.isSome

/-- Content is context-dependent: dosage-adjacent (treatment or emergency
flagged) but not itself a hard block (spec section 4.3 rule 5). -/
def contextDependent (f : RuleFlags) : Bool :=
  f.contains_treatment || f.contains_emergency

/-- Modelled from the spec: the DecisionEngine,
`decide(flags, evidenceSummary) -> (Decision, Severity, RiskScore)` (spec
section 4.3), evaluating the six policy rules in precedence order, first
match wins.  The backend source is not available; rule-3 and rule-5 risk
scores, which the spec leaves numerically open, are instantiated inside
their severity buckets. -/
def DecisionEngine.decide (f : RuleFlags) (es : List EvidenceVerdict)
    (ctx : UserContext) : Verdict :=
  let sub := ruleSubtotal f
  if hardBlock f then
    { decision := Decision.REFUSE, severity := Severity.HIGH, riskScore := max 40 sub }
  else if anyContradicted es then
    { decision := Decision.REFUSE, severity := Severity.HIGH, riskScore := max 30 sub }
  else if !es.isEmpty && allNoEvidence es && f.contains_emergency then
    { decision := Decision.ESCALATE, severity := Severity.HIGH, riskScore := max 60 sub }
  else if mixedSupport es then
    { decision := Decision.ALLOW_WITH_WARNING, severity := Severity.MEDIUM,
      riskScore := weightedGap es }
  else if contextDependent f && !contextComplete ctx then
    { decision := Decision.ASK_MORE_INFO, severity := Severity.MEDIUM,
      riskScore := max 25 sub }
  else
    { decision := Decision.ALLOW, severity := Severity.LOW, riskScore := sub }

/-- RiskScore bucketing to Severity: 0 to 24 LOW, 25 to 59 MEDIUM, 60 to
100 HIGH (spec section 4.3). -/
def bucketSeverity (score : Nat) : Severity :=
  if score ≤ 24 then Severity.LOW
  else if score ≤ 59 then Severity.MEDIUM
  else Severity.HIGH

/-- Numeric rank of a severity, for stating monotonicity. -/
def sevRank : Severity → Nat
  | Severity.LOW => 0
  | Severity.MEDIUM => 1
  | Severity.HIGH => 2

/-- The conditions of precedence rules 1 to 3, which force Severity HIGH. -/
def precedenceForcesHigh (f : RuleFlags) (es : List EvidenceVerdict) : Bool :=
  hardBlock f || anyContradicted es ||
    (!es.isEmpty && allNoEvidence es && f.contains_emergency)

/-- Modelled from the spec: static fallback explanation when the
explanation service is unavailable (spec section 4.4). -/
def staticExplanation (d : Decision) : String :=
  if d == Decision.ALLOW then "content allowed: supported by trusted sources"
  else "content blocked for safety: consult a healthcare professional"

/-- Modelled from the spec: explanation synthesis with the static fallback
(spec section 4.4). -/
def explanationText (svc : ExternalServices) (d : Decision) (sev : Severity)
    (es : List EvidenceVerdict) : String :=
  match svc.explainService d sev es with
  | Except.ok s => s
  | Except.error _ => staticExplanation d

/-- Modelled from the spec: the full four-stage pipeline (spec section 2) —
RuleFilter, EvidenceAggregator, DecisionEngine, ExplanationGenerator — as
one total function from input text and context to an `EvaluationResult`. -/
def evaluatePipeline (svc : ExternalServices) (ctx : UserContext)
    (text : String) : EvaluationResult :=
  let f := ruleFilter text
  let es := gather svc text
  let v := DecisionEngine.decide f es ctx
  { decision := v.decision, severity := v.severity, riskScore := v.riskScore,
    rule_flags := f, evidence_summary := es,
    explanation := explanationText svc v.decision v.severity es }

/-- Two consecutive evaluations of the same text against the same external
provider state (spec section 8, idempotence). -/
def evaluateTwice (svc : ExternalServices) (ctx : UserContext)
    (text : String) : EvaluationResult × EvaluationResult :=
  (evaluatePipeline svc ctx text, evaluatePipeline svc ctx text)

/- ============================== Theorems ============================== -/

/-- C8 counterexample: "toString" is not one of the five decision strings,
yet the content script's bracket lookup finds the truthy member inherited
from `Object.prototype`, so `getDecisionConfig` returns that inherited
member rather than the REFUSE configuration — refuting the claim as
stated. -/
theorem C8_prototype_member_escapes_fallback :
    "toString" ∉ ["REFUSE", "ESCALATE", "ASK_MORE_INFO", "ALLOW_WITH_WARNING", "ALLOW"] ∧
    getDecisionConfig "toString" = ConfigLookup.inherited "toString" ∧
    getDecisionConfig "toString" ≠ getDecisionConfig "REFUSE" := by
  refine ⟨by decide, by decide, by decide⟩

/-- C8 (amended): for every decision string that is neither one of REFUSE,
ESCALATE, ASK_MORE_INFO, ALLOW_WITH_WARNING, ALLOW nor the name of a member
inherited from `Object.prototype`, `getDecisionConfig` returns the REFUSE
configuration (red "CONTENT BLOCKED"); a prototype-member name instead
returns that truthy inherited member; in every case an unknown decision
value never yields the ALLOW configuration. -/
theorem C8_unknown_decision_fails_closed (d : String)
    (h : d ∉ ["REFUSE", "ESCALATE", "ASK_MORE_INFO", "ALLOW_WITH_WARNING", "ALLOW"]) :
    (d ∉ objectPrototypeMembers →
        getDecisionConfig d = getDecisionConfig "REFUSE" ∧
        getDecisionConfig d = ConfigLookup.own
          { color := "#dc2626", icon := "🚫", label := "CONTENT BLOCKED",
            actionButton := "<button class=\"safeguard-btn-danger safeguard-action-btn\" data-action=\"visit-who\">Visit WHO.int for Trusted Info</button>" }) ∧
    (d ∈ objectPrototypeMembers → getDecisionConfig d = ConfigLookup.inherited d) ∧
    getDecisionConfig d ≠ getDecisionConfig "ALLOW" := by
  simp only [List.mem_cons, List.not_mem_nil, or_false, not_or] at h
  obtain ⟨h1, h2, h3, h4, h5⟩ := h
  have h6 : configsLookup d =
      if d ∈ objectPrototypeMembers then ConfigLookup.inherited d
      else ConfigLookup.undefined := by
    unfold configsLookup
    rw [if_neg h1, if_neg h2, if_neg h3, if_neg h4, if_neg h5]
  refine ⟨?_, ?_, ?_⟩
  · intro hp
    have hl : configsLookup d = ConfigLookup.undefined := by
      rw [h6, if_neg hp]
    unfold getDecisionConfig
    rw [hl]
    exact ⟨rfl, rfl⟩
  · intro hp
    have hl : configsLookup d = ConfigLookup.inherited d := by
      rw [h6, if_pos hp]
    unfold getDecisionConfig
    rw [hl]
    rfl
  · unfold getDecisionConfig
    rw [h6]
    by_cases hp : d ∈ objectPrototypeMembers
    · rw [if_pos hp]
      intro hc
      have hc2 : ConfigLookup.inherited d = ConfigLookup.own
          { color := "#16a34a", icon := "✅", label := "CONTENT APPEARS SAFE",
            actionButton := "" } := hc
      exact ConfigLookup.noConfusion hc2
    · rw [if_neg hp]
      decide

/-- Witness for C8 at the malformed decision string "GARBAGE" (not a
prototype member) and at the prototype member name "valueOf". -/
theorem C8_unknown_decision_fails_closed_witness :
    getDecisionConfig "GARBAGE" = getDecisionConfig "REFUSE" ∧
    getDecisionConfig "valueOf" = ConfigLookup.inherited "valueOf" :=
  ⟨((C8_unknown_decision_fails_closed "GARBAGE" (by decide)).1 (by decide)).1,
   (C8_unknown_decision_fails_closed "valueOf" (by decide)).2.1 (by decide)⟩

/-- C9: Within one page session, once a selected text has been evaluated,
any later selection whose `hashContent` value equals an already-evaluated
one (in particular the identical text) triggers no new backend request from
`evaluateSelectedText` — it only shows an "already been evaluated"
notification and leaves the state unchanged; and the `evaluatedContent` set
only ever grows across any run of `evaluateSelectedText`. -/
theorem C9_no_reevaluation_of_known_content (st : ScriptState) (sel : String)
    (hne : sel ≠ "") (hlen : ¬ sel.length < 10)
    (hmem : hashContent sel ∈ st.evaluatedContent) :
    evaluateSelectedText st sel =
      (st, ScriptAction.notification "This content has already been evaluated") ∧
    ∀ t : String, st.evaluatedContent ⊆ (evaluateSelectedText st t).1.evaluatedContent := by
  constructor
  · unfold evaluateSelectedText
    rw [if_neg hne, if_neg hlen]
    simp only [hmem, if_pos]
  · intro t
    unfold evaluateSelectedText
    split
    · exact fun x hx => hx
    · split
      · exact fun x hx => hx
      · dsimp only
        split
        · exact fun x hx => hx
        · exact fun x hx => List.mem_cons_of_mem _ hx

/-- Witness for C9: the text "take 500mg aspirin twice daily" has already
been evaluated, so re-selecting it yields only the duplicate
notification. -/
theorem C9_no_reevaluation_of_known_content_witness :
    evaluateSelectedText
        { evaluatedContent := [hashContent "take 500mg aspirin twice daily"] }
        "take 500mg aspirin twice daily" =
      ({ evaluatedContent := [hashContent "take 500mg aspirin twice daily"] },
       ScriptAction.notification "This content has already been evaluated") :=
  (C9_no_reevaluation_of_known_content
      { evaluatedContent := [hashContent "take 500mg aspirin twice daily"] }
      "take 500mg aspirin twice daily"
      (by decide) (by decide) (List.mem_singleton.mpr rfl)).1

/-- C10: `extractMainContent` returns the full (whitespace-trimmed but
untruncated) inner text of the first matching main-content element when one
of the selectors matches, and only in the fallback case (no selector
matches) returns the page body's text truncated to at most 5000
characters; so the fallback result's length never exceeds 5000. -/
theorem C10_extractMainContent_truncation (page : Page) :
    (∀ el : PageElement, findFirstMatch page contentSelectors = some el →
        extractMainContent page = el.innerText.trim) ∧
    (findFirstMatch page contentSelectors = none →
        extractMainContent page = jsSubstringTo page.bodyInnerText.trim 5000 ∧
        (extractMainContent page).length ≤ 5000) := by
  constructor
  · intro el h
    unfold extractMainContent
    rw [h]
  · intro h
    unfold extractMainContent
    rw [h]
    refine ⟨rfl, ?_⟩
    show (String.mk (page.bodyInnerText.trim.data.take 5000)).length ≤ 5000
    have : (String.mk (page.bodyInnerText.trim.data.take 5000)).length
        = (page.bodyInnerText.trim.data.take 5000).length := rfl
    rw [this, List.length_take]
    omega

/-- Witness for C10: a page whose `article` element matches yields that
element's trimmed text; a page with no matching selector yields at most
5000 characters. -/
theorem C10_extractMainContent_truncation_witness :
    extractMainContent
        { querySelector := fun s =>
            if s = "article" then some { innerText := "  hello medical world  " } else none,
          bodyInnerText := "body text" } = "  hello medical world  ".trim ∧
    (extractMainContent
        { querySelector := fun _ => none, bodyInnerText := "short body" }).length ≤ 5000 :=
  ⟨(C10_extractMainContent_truncation _).1 { innerText := "  hello medical world  " } (by decide),
   ((C10_extractMainContent_truncation _).2 (by rfl)).2⟩

/-- C2: In the chat variant's response, the `filtered_response` field is
present exactly when `safe` is true, and when a response is blocked
(`safe` false) the side panel's `handleSendMessage` displays only the
explanation text, never the underlying base model's raw answer. -/
theorem C2_blocked_chat_shows_only_explanation
    (um ar : String) (v : Verdict) (expl : String) :
    ((mkChatResponse um ar v expl).filtered_response.isSome
        = (mkChatResponse um ar v expl).safe) ∧
    ((mkChatResponse um ar v expl).safe = false →
        handleSendMessageDisplay (mkChatResponse um ar v expl)
          = ChatMessage.blocked expl v.decision v.severity) := by
  constructor
  · show (if chatSafe v.decision then some ar else none).isSome = chatSafe v.decision
    cases chatSafe v.decision <;> simp
  · intro h
    have hs : chatSafe v.decision = false := h
    unfold handleSendMessageDisplay
    show (if (mkChatResponse um ar v expl).safe then _ else _) = _
    have : (mkChatResponse um ar v expl).safe = false := hs
    rw [this]
    rfl

/-- Witness for C2: a `REFUSE` chat response carries no `filtered_response`
and is displayed as a blocked message holding only the explanation. -/
theorem C2_blocked_chat_shows_only_explanation_witness :
    handleSendMessageDisplay
        (mkChatResponse "what should I take" "raw model answer"
          { decision := Decision.REFUSE, severity := Severity.HIGH, riskScore := 40 }
          "This content includes specific medication dosages.")
      = ChatMessage.blocked "This content includes specific medication dosages."
          Decision.REFUSE Severity.HIGH :=
  (C2_blocked_chat_shows_only_explanation "what should I take" "raw model answer"
      { decision := Decision.REFUSE, severity := Severity.HIGH, riskScore := 40 }
      "This content includes specific medication dosages.").2 rfl

/- ------------------------- Helper lemmas ------------------------- -/

/-- A failed provider call delivers no sources. -/
theorem deliveredSources_of_failed {r : Except String (List Source)}
    (h : providerFailed r = true) : deliveredSources r = [] := by
  cases r with
  | error e => rfl
  | ok l =>
    simp only [providerFailed, List.isEmpty_iff] at h
    simp [deliveredSources, h]

/-- When both providers fail for a claim, the search delivers no sources. -/
theorem searchForClaim_of_both_failed (svc : ExternalServices) (c : String)
    (h1 : providerFailed (svc.primarySearch c) = true)
    (h2 : providerFailed (svc.fallbackSearch c) = true) :
    searchForClaim svc c = [] := by
  unfold searchForClaim
  rw [if_pos h1]
  exact deliveredSources_of_failed h2

/-- Without a hard-block flag the rule subtotal is at most 20 (treatment
and emergency weights only). -/
theorem ruleSubtotal_le_of_no_hardBlock {f : RuleFlags}
    (h : hardBlock f = false) : ruleSubtotal f ≤ 20 := by
  rcases f with ⟨d, dg, t, p, e⟩
  simp only [hardBlock, Bool.or_eq_false_iff] at h
  obtain ⟨⟨hd, hp⟩, hdg⟩ := h
  subst hd; subst hp; subst hdg
  unfold ruleSubtotal
  cases t <;> cases e <;> simp

/-- Mixed support requires at least one claim. -/
theorem mixedSupport_ne_nil {es : List EvidenceVerdict}
    (h : mixedSupport es = true) : es.length ≠ 0 := by
  intro hlen
  rw [List.length_eq_zero] at hlen
  subst hlen
  simp [mixedSupport] at h

/-- The rule-4 risk score always lands in the MEDIUM bucket when claims are
present. -/
theorem weightedGap_bounds {es : List EvidenceVerdict} (h : es.length ≠ 0) :
    25 ≤ weightedGap es ∧ weightedGap es ≤ 59 := by
  unfold weightedGap
  rw [if_neg h]
  omega

/- ----------------------- Backend claim theorems ----------------------- -/

/-- C1: For every input in which a hard-block rule flag (contains_dosage,
contains_prescription, or definitive-diagnosis) is true, the
DecisionEngine's decide returns Decision REFUSE with Severity HIGH and
RiskScore `max 40 (rule subtotal)`, regardless of the evidence summary's
contents (and of the user context). -/
theorem C1_hard_block_forces_refuse (f : RuleFlags) (es : List EvidenceVerdict)
    (ctx : UserContext)
    (h : f.contains_dosage = true ∨ f.contains_prescription = true ∨
         f.contains_diagnosis = true) :
    DecisionEngine.decide f es ctx =
      { decision := Decision.REFUSE, severity := Severity.HIGH,
        riskScore := max 40 (ruleSubtotal f) } := by
  have hb : hardBlock f = true := by
    unfold hardBlock
    rcases h with h | h | h <;> simp [h]
  unfold DecisionEngine.decide
  rw [if_pos hb]

/-- Witness for C1: the README's dosage example flags force REFUSE, HIGH,
risk 40 for any evidence summary. -/
theorem C1_hard_block_forces_refuse_witness :
    DecisionEngine.decide
        { contains_dosage := true, contains_diagnosis := false,
          contains_treatment := true, contains_prescription := false,
          contains_emergency := false }
        [{ claim := "paracetamol treats fever", status := EvidenceStatus.STRONG_SUPPORT,
           confidence := ConfidenceLevel.HIGH, sources := [] }]
        { age := none, symptoms := none, medicalHistory := none, timeframe := none }
      = { decision := Decision.REFUSE, severity := Severity.HIGH, riskScore := 40 } := by
  have h := C1_hard_block_forces_refuse
    { contains_dosage := true, contains_diagnosis := false,
      contains_treatment := true, contains_prescription := false,
      contains_emergency := false }
    [{ claim := "paracetamol treats fever", status := EvidenceStatus.STRONG_SUPPORT,
       confidence := ConfidenceLevel.HIGH, sources := [] }]
    { age := none, symptoms := none, medicalHistory := none, timeframe := none }
    (Or.inl rfl)
  rw [h]
  rfl

/-- C3: If both the primary and the fallback evidence-search providers fail
(error, timeout, or empty result) for every extracted claim, the pipeline
still returns a complete EvaluationResult containing one of the five
decisions, with every claim's verdict status NO_EVIDENCE and confidence
UNKNOWN; being a total Lean function, `evaluatePipeline` cannot raise an
unhandled fault or propagate a provider error. -/
theorem C3_provider_failure_degrades_gracefully
    (svc : ExternalServices) (ctx : UserContext) (text : String)
    (h : ∀ c : String, providerFailed (svc.primarySearch c) = true ∧
                       providerFailed (svc.fallbackSearch c) = true) :
    (∀ v ∈ (evaluatePipeline svc ctx text).evidence_summary,
        v.status = EvidenceStatus.NO_EVIDENCE ∧
        v.confidence = ConfidenceLevel.UNKNOWN) ∧
    (evaluatePipeline svc ctx text).decision ∈
      [Decision.ALLOW, Decision.ALLOW_WITH_WARNING, Decision.REFUSE,
       Decision.ESCALATE, Decision.ASK_MORE_INFO] := by
  constructor
  · intro v hv
    have hv' : v ∈ (svc.extractClaims text).map (verdictForClaim svc) := hv
    rw [List.mem_map] at hv'
    obtain ⟨c, -, hc⟩ := hv'
    have hsearch : searchForClaim svc c = [] :=
      searchForClaim_of_both_failed svc c (h c).1 (h c).2
    have : verdictForClaim svc c =
        { claim := c, status := EvidenceStatus.NO_EVIDENCE,
          confidence := ConfidenceLevel.UNKNOWN, sources := [] } := by
      unfold verdictForClaim
      rw [hsearch]
      rfl
    rw [← hc, this]
    exact ⟨rfl, rfl⟩
  · cases hd : (evaluatePipeline svc ctx text).decision <;> simp

/-- Witness for C3: with both providers erroring on every query and one
extracted claim, the pipeline still yields a full result whose single
verdict is NO_EVIDENCE with UNKNOWN confidence. -/
theorem C3_provider_failure_degrades_gracefully_witness :
    ((evaluatePipeline
        { primarySearch := fun _ => Except.error "search quota exceeded",
          fallbackSearch := fun _ => Except.error "request timed out",
          extractClaims := fun t => [t],
          explainService := fun _ _ _ => Except.error "service unavailable" }
        { age := none, symptoms := none, medicalHistory := none, timeframe := none }
        "Drinking bleach cures COVID-19").evidence_summary.all
      (fun v => v.status == EvidenceStatus.NO_EVIDENCE &&
                v.confidence == ConfidenceLevel.UNKNOWN)) = true := by
  have h := C3_provider_failure_degrades_gracefully
    { primarySearch := fun _ => Except.error "search quota exceeded",
      fallbackSearch := fun _ => Except.error "request timed out",
      extractClaims := fun t => [t],
      explainService := fun _ _ _ => Except.error "service unavailable" }
    { age := none, symptoms := none, medicalHistory := none, timeframe := none }
    "Drinking bleach cures COVID-19"
    (fun c => ⟨rfl, rfl⟩)
  rw [List.all_eq_true]
  intro v hv
  have hp := h.1 v hv
  simp [hp.1, hp.2]

/-- C4: For every evaluation, if the final RiskScore equals 0 then the
Decision is ALLOW; equivalently, every non-ALLOW decision
(ALLOW_WITH_WARNING, REFUSE, ESCALATE, ASK_MORE_INFO) is accompanied by a
strictly positive RiskScore. -/
theorem C4_zero_risk_requires_allow (f : RuleFlags) (es : List EvidenceVerdict)
    (ctx : UserContext) :
    ((DecisionEngine.decide f es ctx).riskScore = 0 →
        (DecisionEngine.decide f es ctx).decision = Decision.ALLOW) ∧
    ((DecisionEngine.decide f es ctx).decision ≠ Decision.ALLOW →
        0 < (DecisionEngine.decide f es ctx).riskScore) := by
  unfold DecisionEngine.decide
  split_ifs with h1 h2 h3 h4 h5 <;> dsimp only
  · exact ⟨fun h => absurd h (by omega), fun _ => by omega⟩
  · exact ⟨fun h => absurd h (by omega), fun _ => by omega⟩
  · exact ⟨fun h => absurd h (by omega), fun _ => by omega⟩
  · have hb := weightedGap_bounds (mixedSupport_ne_nil h4)
    exact ⟨fun h => absurd h (by omega), fun _ => by omega⟩
  · exact ⟨fun h => absurd h (by omega), fun _ => by omega⟩
  · exact ⟨fun _ => rfl, fun h => absurd rfl h⟩

/-- Witness for C4: a request with no flags and no claims scores 0 and is
ALLOWed. -/
theorem C4_zero_risk_requires_allow_witness :
    (DecisionEngine.decide
        { contains_dosage := false, contains_diagnosis := false,
          contains_treatment := false, contains_prescription := false,
          contains_emergency := false }
        [] { age := none, symptoms := none, medicalHistory := none, timeframe := none }).riskScore
      = 0 ∧
    (DecisionEngine.decide
        { contains_dosage := false, contains_diagnosis := false,
          contains_treatment := false, contains_prescription := false,
          contains_emergency := false }
        [] { age := none, symptoms := none, medicalHistory := none, timeframe := none }).decision
      = Decision.ALLOW :=
  ⟨rfl,
   (C4_zero_risk_requires_allow
      { contains_dosage := false, contains_diagnosis := false,
        contains_treatment := false, contains_prescription := false,
        contains_emergency := false }
      [] { age := none, symptoms := none, medicalHistory := none, timeframe := none }).1 rfl⟩

/-- C5: Severity is derived from RiskScore by the fixed buckets 0 to 24 LOW,
25 to 59 MEDIUM, 60 to 100 HIGH — so Severity is monotonically
non-decreasing in RiskScore — except that precedence rules 1 to 3
(hard-block flag, contradicted evidence, emergency with no evidence) force
Severity HIGH regardless of the numeric score. -/
theorem C5_severity_follows_buckets_except_rules123 :
    (∀ a b : Nat, a ≤ b →
        sevRank (bucketSeverity a) ≤ sevRank (bucketSeverity b)) ∧
    (∀ (f : RuleFlags) (es : List EvidenceVerdict) (ctx : UserContext),
      (DecisionEngine.decide f es ctx).severity =
        if precedenceForcesHigh f es then Severity.HIGH
        else bucketSeverity (DecisionEngine.decide f es ctx).riskScore) := by
  constructor
  · intro a b hab
    unfold bucketSeverity
    split_ifs <;> simp [sevRank] <;> omega
  · intro f es ctx
    unfold DecisionEngine.decide
    cases h1 : hardBlock f with
    | true =>
      have hp : precedenceForcesHigh f es = true := by
        unfold precedenceForcesHigh
        rw [h1]
        rfl
      rw [hp]
      rfl
    | false =>
      cases h2 : anyContradicted es with
      | true =>
        have hp : precedenceForcesHigh f es = true := by
          unfold precedenceForcesHigh
          rw [h1, h2]
          rfl
        rw [hp]
        rfl
      | false =>
        cases h3 : (!es.isEmpty && allNoEvidence es && f.contains_emergency) with
        | true =>
          have hp : precedenceForcesHigh f es = true := by
            unfold precedenceForcesHigh
            rw [h1, h2, h3]
            rfl
          rw [hp]
          rfl
        | false =>
          have hp : precedenceForcesHigh f es = false := by
            unfold precedenceForcesHigh
            rw [h1, h2, h3]
            rfl
          rw [hp]
          cases h4 : mixedSupport es with
          | true =>
            show Severity.MEDIUM = bucketSeverity (weightedGap es)
            have hb := weightedGap_bounds (mixedSupport_ne_nil h4)
            unfold bucketSeverity
            rw [if_neg (by omega), if_pos (by omega)]
          | false =>
            cases h5 : (contextDependent f && !contextComplete ctx) with
            | true =>
              show Severity.MEDIUM = bucketSeverity (max 25 (ruleSubtotal f))
              have hs := ruleSubtotal_le_of_no_hardBlock h1
              unfold bucketSeverity
              rw [if_neg (by omega), if_pos (by omega)]
            | false =>
              show Severity.LOW = bucketSeverity (ruleSubtotal f)
              have hs := ruleSubtotal_le_of_no_hardBlock h1
              unfold bucketSeverity
              rw [if_pos (by omega)]

/-- Witness for C5: bucket monotonicity at 10 and 70, and the severity
equation at the README's dosage example. -/
theorem C5_severity_follows_buckets_except_rules123_witness :
    sevRank (bucketSeverity 10) ≤ sevRank (bucketSeverity 70) ∧
    (DecisionEngine.decide
        { contains_dosage := true, contains_diagnosis := false,
          contains_treatment := true, contains_prescription := false,
          contains_emergency := false }
        [] { age := none, symptoms := none, medicalHistory := none, timeframe := none }).severity
      = (if precedenceForcesHigh
            { contains_dosage := true, contains_diagnosis := false,
              contains_treatment := true, contains_prescription := false,
              contains_emergency := false } []
         then Severity.HIGH
         else bucketSeverity
            (DecisionEngine.decide
              { contains_dosage := true, contains_diagnosis := false,
                contains_treatment := true, contains_prescription := false,
                contains_emergency := false }
              [] { age := none, symptoms := none, medicalHistory := none,
                   timeframe := none }).riskScore) :=
  ⟨C5_severity_follows_buckets_except_rules123.1 10 70 (by omega),
   C5_severity_follows_buckets_except_rules123.2
      { contains_dosage := true, contains_diagnosis := false,
        contains_treatment := true, contains_prescription := false,
        contains_emergency := false }
      [] { age := none, symptoms := none, medicalHistory := none, timeframe := none }⟩

/-- Untiered sources are dropped by the credible-source filter. -/
theorem credibleSources_cons_untiered {s : Source} (srcs : List Source)
    (h : sourceTier s = none) :
    credibleSources (s :: srcs) = credibleSources srcs := by
  unfold credibleSources
  rw [List.filter_cons]
  simp [h]

/-- C6: Tier assignment is a pure function of a source's domain — sources
with the same domain always get the same Tier — and the confidence score is
fully determined by the Tier (Tier1=100, Tier2=85, Tier3=70, Tier4=60);
untiered sources get confidence 0 and are excluded from the support
calculation (neither the aggregated status nor the average confidence
changes when an untiered source is added). -/
theorem C6_tier_pure_function_of_domain :
    (∀ s₁ s₂ : Source, s₁.domain = s₂.domain → sourceTier s₁ = sourceTier s₂) ∧
    (∀ s : Source,
      sourceConfidence s = confidenceOfTier (sourceTier s) ∧
      (sourceTier s = some 1 → sourceConfidence s = 100) ∧
      (sourceTier s = some 2 → sourceConfidence s = 85) ∧
      (sourceTier s = some 3 → sourceConfidence s = 70) ∧
      (sourceTier s = some 4 → sourceConfidence s = 60) ∧
      (sourceTier s = none → sourceConfidence s = 0)) ∧
    (∀ (s : Source) (srcs : List Source), sourceTier s = none →
      aggregateStatus (s :: srcs) = aggregateStatus srcs ∧
      avgConfidence (s :: srcs) = avgConfidence srcs) := by
  refine ⟨?_, ?_, ?_⟩
  · intro s₁ s₂ h
    unfold sourceTier
    rw [h]
  · intro s
    refine ⟨rfl, ?_, ?_, ?_, ?_, ?_⟩ <;>
      · intro h
        unfold sourceConfidence
        rw [h]
        rfl
  · intro s srcs h
    have hcred := credibleSources_cons_untiered srcs h
    have hcor : corroboratingSources (s :: srcs) = corroboratingSources srcs := by
      unfold corroboratingSources
      rw [hcred]
    constructor
    · unfold aggregateStatus
      rw [hcor, hcred]
    · unfold avgConfidence
      rw [hcor]

/-- Witness for C6: two WHO sources with the same domain share a tier, the
WHO tier yields confidence 100, and adding an untiered blog source to a WHO
source changes neither the aggregated status nor the average confidence. -/
theorem C6_tier_pure_function_of_domain_witness :
    sourceTier { url := "https://www.who.int/a", title := "A", domain := "who.int",
                 negatesClaim := false }
      = sourceTier { url := "https://www.who.int/b", title := "B", domain := "who.int",
                     negatesClaim := false } ∧
    sourceConfidence { url := "https://www.who.int/a", title := "A", domain := "who.int",
                       negatesClaim := false } = 100 ∧
    aggregateStatus
        [{ url := "https://someblog.example.com/x", title := "X",
           domain := "someblog.example.com", negatesClaim := false },
         { url := "https://www.who.int/a", title := "A", domain := "who.int",
           negatesClaim := false }]
      = aggregateStatus
        [{ url := "https://www.who.int/a", title := "A", domain := "who.int",
           negatesClaim := false }] :=
  ⟨C6_tier_pure_function_of_domain.1
      { url := "https://www.who.int/a", title := "A", domain := "who.int",
        negatesClaim := false }
      { url := "https://www.who.int/b", title := "B", domain := "who.int",
        negatesClaim := false } rfl,
   ((C6_tier_pure_function_of_domain.2.1
      { url := "https://www.who.int/a", title := "A", domain := "who.int",
        negatesClaim := false }).2.1 (by decide)),
   (C6_tier_pure_function_of_domain.2.2
      { url := "https://someblog.example.com/x", title := "X",
        domain := "someblog.example.com", negatesClaim := false }
      [{ url := "https://www.who.int/a", title := "A", domain := "who.int",
         negatesClaim := false }] (by decide)).1⟩

/-- C7: Evaluating the identical input text twice, with no change in
external provider state, yields an identical Decision and an identical
RiskScore on both runs; the DecisionEngine's decide is a pure function of
its inputs (the whole pipeline is a function of the services, context and
text alone, with no hidden state). -/
theorem C7_evaluation_idempotent (svc : ExternalServices) (ctx : UserContext)
    (text : String) :
    (evaluateTwice svc ctx text).1.decision = (evaluateTwice svc ctx text).2.decision ∧
    (evaluateTwice svc ctx text).1.riskScore = (evaluateTwice svc ctx text).2.riskScore ∧
    ∀ (f : RuleFlags) (es : List EvidenceVerdict) (c : UserContext),
      DecisionEngine.decide f es c = DecisionEngine.decide f es c :=
  ⟨rfl, rfl, fun _ _ _ => rfl⟩

end SafeGuard
